import Mathlib

/-!
Shallow embedding of `ChatterboxServer/server.py` (Murmur TTS server):
tier model, backend slot state, tier resolution with fallback, the
dispatch path of `/generate`, the audio post-processing helpers and the
health endpoint, together with theorems settling the specification
claims about them.

Numeric conventions: Python floats are modelled as `ℚ`, Python `int(x)`
(truncation toward zero) as `pyInt`. Audio buffers are `List ℚ`.
External systems (the ML backends, the filesystem, WAV/base64 encoding)
are modelled at their interface boundary: a backend is an oracle
function on the invocation it receives, and the filesystem existence
check of a voice sample is folded into the catalog entry.
-/

namespace Murmur

/-- Python `int(q)` for a rational: truncation toward zero (the ceiling,
written as a negated floor, for negative inputs and the floor
otherwise). -/
def pyInt (q : ℚ) : ℤ :=
  if q < 0 then -(-q).floor else q.floor

/-- `ModelTier` enum from server.py: fast = Kokoro, normal = Chatterbox
Turbo, high = Chatterbox Standard. -/
inductive ModelTier where
  | fast
  | normal
  | high
deriving DecidableEq

/-- Legacy `ModelType` enum (`standard` / `turbo`) kept for backwards
compatibility. -/
inductive ModelType where
  | standard
  | turbo
deriving DecidableEq

/-- The `models` global dict, projected to what the orchestration logic
reads from it: whether `models[tier]` is not `None` (a loaded handle). -/
structure Models where
  fast : Bool
  normal : Bool
  high : Bool
deriving DecidableEq

/-- `models[t] is not None` for a tier `t`. -/
def Models.loaded (m : Models) : ModelTier → Bool
  | .fast => m.fast
  | .normal => m.normal
  | .high => m.high

/-- The `model_availability` global dict (model downloaded flags). -/
structure ModelAvailability where
  fast : Bool
  normal : Bool
  high : Bool
deriving DecidableEq

/-- Initial `models` dict (server.py lines 45-49): every handle is `None`
at process start. -/
def initial_models : Models := ⟨false, false, false⟩

/-- Initial `model_availability` dict (server.py lines 52-56): all false. -/
def initial_availability : ModelAvailability := ⟨false, false, false⟩

/-- `models` state after all three loaders fail: each loader leaves
`models[tier] = None` on failure (`load_kokoro_model`,
`load_chatterbox_turbo`, `load_chatterbox_standard` only assign the
handle on success). -/
def models_after_all_load_failures : Models := ⟨false, false, false⟩

/-- `model_availability` after all three loaders fail: each failure
branch assigns `model_availability[tier] = False`. -/
def availability_after_all_load_failures : ModelAvailability := ⟨false, false, false⟩

/-- `SAMPLE_RATE = 24000` (server.py line 59). -/
def SAMPLE_RATE : ℤ := 24000

/-- `KOKORO_SAMPLE_RATE = 24000` (server.py line 60). -/
def KOKORO_SAMPLE_RATE : ℤ := 24000

/-- Kokoro voice ids, the keys of the `KOKORO_VOICES` dict (server.py
lines 63-78). -/
def KOKORO_VOICES : List String :=
  ["af_bella", "af_nicole", "af_sarah", "af_sky",
   "bf_emma", "bf_isabella",
   "am_adam", "am_michael",
   "bm_george", "bm_lewis"]

/-- The `TTSRequest` pydantic model (server.py lines 150-160). -/
structure TTSRequest where
  text : String
  tier : ModelTier
  model : Option ModelType
  exaggeration : ℚ
  cfg_weight : ℚ
  speed : ℚ
  voice_id : Option String
  audio_prompt_path : Option String

/-- Pydantic field validation of `TTSRequest`: text length in 1..10000,
exaggeration and cfg_weight in [0,1], speed in [0.5,2]. -/
def validate_request (r : TTSRequest) : Bool :=
  decide (1 ≤ r.text.length) && decide (r.text.length ≤ 10000) &&
  decide (0 ≤ r.exaggeration) && decide (r.exaggeration ≤ 1) &&
  decide (0 ≤ r.cfg_weight) && decide (r.cfg_weight ≤ 1) &&
  decide (1/2 ≤ r.speed) && decide (r.speed ≤ 2)

/-- `resolve_tier` (server.py lines 499-519): a legacy `model` value is
mapped directly onto a tier and returned; otherwise the requested tier
is served if loaded, else the first loaded tier in the fixed fallback
order `[fast, normal, high]`, else HTTP 503. -/
def resolve_tier (m : Models) (r : TTSRequest) : Except String ModelTier :=
  match r.model with
  | some .standard => .ok .high
  | some .turbo => .ok .normal
  | none =>
    if m.loaded r.tier then .ok r.tier
    else if m.fast then .ok .fast
    else if m.normal then .ok .normal
    else if m.high then .ok .high
    else .error "No TTS models loaded"

/-- Truthiness of an optional string in Python (`if request.voice_id:`):
true exactly when present and non-empty. -/
def truthyOpt : Option String → Bool
  | none => false
  | some s => s ≠ ""

/-- `get_voice_audio_path` (server.py lines 135-147): returns the sample
path for a catalog voice id, `None` for an unknown id or a missing
sample file. The catalog is a list of `(id, entry)` pairs where the
entry is `some path` when the sample file exists on disk and `none` when
it is missing (the filesystem check folded into the entry). -/
def get_voice_audio_path (library : List (String × Option String)) (voice_id : String) :
    Option String :=
  match library.lookup voice_id with
  | none => none
  | some p => p

/-- Voice resolution in `generate_speech` (server.py lines 533-539): when
a non-default voice id is given, no explicit prompt path is set, and the
tier is a Chatterbox tier, the prompt becomes the catalog lookup result;
otherwise the request prompt is kept. -/
def resolve_prompt (library : List (String × Option String)) (r : TTSRequest)
    (tier : ModelTier) : Option String :=
  if truthyOpt r.voice_id ∧ r.voice_id ≠ some "default" ∧
      truthyOpt r.audio_prompt_path = false ∧
      (tier = ModelTier.normal ∨ tier = ModelTier.high) then
    get_voice_audio_path library (r.voice_id.getD "")
  else
    r.audio_prompt_path

/-- Voice validation inside `generate_kokoro` (server.py lines 400-405):
an id that is neither a Kokoro voice nor "default" is replaced by
"af_bella", and "default" itself also resolves to "af_bella". -/
def kokoro_validate_voice (voice : String) : String :=
  if voice ∉ KOKORO_VOICES ∧ voice ≠ "default" then "af_bella"
  else if voice = "default" then "af_bella"
  else voice

/-- One concrete invocation of a backend, as assembled by the dispatch
path: which backend is called and with which arguments. -/
inductive BackendCall where
  | kokoro (text voice : String) (speed : ℚ)
  | turbo (text : String) (prompt : Option String)
  | standard (text : String) (exaggeration cfg_weight : ℚ) (prompt : Option String)
deriving DecidableEq

/-- The backend invocation built for a resolved tier (server.py lines
549-567 together with the entry checks of `generate_kokoro`,
`generate_chatterbox_turbo` and `generate_chatterbox_standard`): an
unloaded handle raises HTTP 503; the fast tier maps the voice id through
the Kokoro voice list; the normal tier passes the prompt only when it is
truthy; the high tier passes exaggeration, cfg_weight and the prompt. -/
def dispatch_call (library : List (String × Option String)) (m : Models)
    (r : TTSRequest) (tier : ModelTier) : Except String BackendCall :=
  let prompt := resolve_prompt library r tier
  match tier with
  | .fast =>
    if m.fast = false then .error "Kokoro model not loaded"
    else
      let kv := match r.voice_id with
        | some v => if v ∈ KOKORO_VOICES then v else "af_bella"
        | none => "af_bella"
      .ok (.kokoro r.text (kokoro_validate_voice kv) r.speed)
  | .normal =>
    if m.normal = false then .error "Chatterbox Turbo model not loaded"
    else .ok (.turbo r.text (if truthyOpt prompt then prompt else none))
  | .high =>
    if m.high = false then .error "Chatterbox Standard model not loaded"
    else .ok (.standard r.text r.exaggeration r.cfg_weight prompt)

/-- `apply_speed_change` (server.py lines 203-211): speed 1.0 is the
identity; otherwise the waveform is returned unchanged with the sample
rate reinterpreted as `int(sample_rate * speed)`. -/
def apply_speed_change (audio : List ℚ) (speed : ℚ) (sample_rate : ℤ) :
    List ℚ × ℤ :=
  if speed = 1 then (audio, sample_rate)
  else (audio, pyInt (sample_rate * speed))

/-- `np.linspace a b n`: `n` evenly spaced points from `a` to `b`
inclusive (`[a]` for `n = 1`, empty for `n = 0`). -/
def linspace (a b : ℚ) (n : ℕ) : List ℚ :=
  if n = 0 then []
  else if n = 1 then [a]
  else (List.range n).map (fun i => a + i * (b - a) / (n - 1))

/-- Fade window size computed by `apply_fade_out` for a positive fade
length: `int(fade_length * sample_rate)` clamped to the buffer length
(server.py lines 194-196). -/
def fade_window (audio : List ℚ) (fade_length : ℚ) (sample_rate : ℕ) : ℕ :=
  if (pyInt (fade_length * sample_rate)).toNat ≥ audio.length then audio.length
  else (pyInt (fade_length * sample_rate)).toNat

/-- `apply_fade_out` (server.py lines 189-200): no-op for a non-positive
fade length; otherwise multiplies the last `fade_window` samples by
`np.linspace 1 0 fade_window`. When the window is 0 and the buffer is
non-empty, the numpy statement `audio[-0:] = audio[-0:] * fade_curve`
multiplies the whole buffer by an empty curve and raises a broadcast
`ValueError`, modelled as an error result. -/
def apply_fade_out (audio : List ℚ) (fade_length : ℚ) (sample_rate : ℕ) :
    Except String (List ℚ) :=
  if fade_length ≤ 0 then .ok audio
  else
    let fs := fade_window audio fade_length sample_rate
    if fs = 0 ∧ audio.length ≠ 0 then
      .error "could not broadcast input array"
    else
      .ok (audio.take (audio.length - fs) ++
        List.zipWith (· * ·) (audio.drop (audio.length - fs)) (linspace 1 0 fs))

/-- Numpy `ndarray.squeeze()` at the shape level: removes every axis of
size 1. -/
def np_squeeze (shape : List ℕ) : List ℕ :=
  shape.filter (fun d => d ≠ 1)

/-- The output-shape normalization of the dispatch path (server.py lines
426-427 and 460-461): `if audio_np.ndim > 1: audio_np = audio_np.squeeze()`.
Returns the shape of the resulting sample buffer. -/
def ensure_1d (shape : List ℕ) : List ℕ :=
  if 1 < shape.length then np_squeeze shape else shape

/-- `tier.value` of a `ModelTier`. -/
def tier_value : ModelTier → String
  | .fast => "fast"
  | .normal => "normal"
  | .high => "high"

/-- The `TTSResponse` model (server.py lines 163-170), with the raw
sample buffer standing in for its WAV/base64 encoding (the encoder is an
external collaborator). -/
structure TTSResponse where
  audio : List ℚ
  sample_rate : ℤ
  duration_seconds : ℚ
  format : String
  tier_used : String
  model_used : String

/-- Body of `generate_speech` after tier resolution (server.py lines
531-613): build the backend invocation, run the backend (an oracle from
invocations to already-converted 1-D sample buffers), pick the native
sample rate and legacy model name of the tier, apply the speed change
for non-Kokoro tiers when speed is not 1.0, and assemble the response.
GPU cache management is a no-op in the model. -/
def generate_with_tier (library : List (String × Option String)) (m : Models)
    (backend : BackendCall → List ℚ) (r : TTSRequest) (tier : ModelTier) :
    Except String TTSResponse :=
  match dispatch_call library m r tier with
  | .error e => .error e
  | .ok call =>
    let audio := backend call
    let sample_rate : ℤ :=
      match tier with
      | .fast => KOKORO_SAMPLE_RATE
      | _ => SAMPLE_RATE
    let model_name : String :=
      match tier with
      | .fast => "kokoro"
      | .normal => "turbo"
      | .high => "standard"
    let out :=
      if tier ≠ ModelTier.fast ∧ r.speed ≠ 1 then
        apply_speed_change audio r.speed sample_rate
      else (audio, sample_rate)
    .ok { audio := out.1, sample_rate := out.2,
          duration_seconds := (out.1.length : ℚ) / (out.2 : ℚ),
          format := "wav", tier_used := tier_value tier,
          model_used := model_name }

/-- The `/generate` handler `generate_speech` (server.py lines 522-621):
resolve the tier, then dispatch and post-process. -/
def generate_speech (library : List (String × Option String)) (m : Models)
    (backend : BackendCall → List ℚ) (r : TTSRequest) :
    Except String TTSResponse :=
  match resolve_tier m r with
  | .error e => .error e
  | .ok tier => generate_with_tier library m backend r tier

/-- Whether an `Except` result is a success. -/
def exceptIsOk {α : Type} : Except String α → Bool
  | .ok _ => true
  | .error _ => false

/-- The `HealthResponse` model (server.py lines 179-186): overall status,
per-tier `(available, loaded)` pairs, device, and the legacy fields. -/
structure HealthResponse where
  status : String
  tiers : List (String × Bool × Bool)
  device : String
  models_loaded : List (String × Bool)
  available_models : List String
deriving DecidableEq

/-- The `/health` handler `health_check` (server.py lines 347-389):
projects the `models` and `model_availability` dicts into a status
object; the status string is "ok" when any handle is loaded and the
constant "no_models_loaded" otherwise. -/
def health_check (m : Models) (avail : ModelAvailability) (device : String) :
    HealthResponse :=
  { status := if m.fast || m.normal || m.high then "ok" else "no_models_loaded",
    tiers := [("fast", avail.fast, m.fast),
              ("normal", avail.normal, m.normal),
              ("high", avail.high, m.high)],
    device := device,
    models_loaded := [("standard", m.high), ("turbo", m.normal), ("kokoro", m.fast)],
    available_models :=
      (if m.fast then ["fast"] else []) ++
      (if m.normal then ["normal"] else []) ++
      (if m.high then ["high"] else []) }

/-! ## Helper lemmas -/

/-- The executable `Rat.floor` agrees with the floor of the ordered
field. -/
theorem rat_floor_eq (q : ℚ) : q.floor = ⌊q⌋ := rfl

/-- `pyInt` in terms of floor and ceiling. -/
theorem pyInt_eq (q : ℚ) : pyInt q = if q < 0 then ⌈q⌉ else ⌊q⌋ := by
  by_cases h : q < 0
  · rw [pyInt, if_pos h, if_pos h, rat_floor_eq, Int.floor_neg, neg_neg]
  · rw [pyInt, if_neg h, if_neg h]
    exact rat_floor_eq q

/-- `pyInt` fixes the integers. -/
theorem pyInt_intCast (k : ℤ) : pyInt (k : ℚ) = k := by
  rw [pyInt_eq]
  split_ifs <;> simp

/-- Tier resolution only reads the `model` and `tier` fields of the
request. -/
theorem resolve_tier_congr (m : Models) (r1 r2 : TTSRequest)
    (hm : r1.model = r2.model) (ht : r1.tier = r2.tier) :
    resolve_tier m r1 = resolve_tier m r2 := by
  unfold resolve_tier
  rw [hm, ht]

/-- Prompt resolution only reads the `voice_id` and `audio_prompt_path`
fields of the request. -/
theorem resolve_prompt_congr (library : List (String × Option String))
    (r1 r2 : TTSRequest) (tier : ModelTier)
    (hv : r1.voice_id = r2.voice_id)
    (ha : r1.audio_prompt_path = r2.audio_prompt_path) :
    resolve_prompt library r1 tier = resolve_prompt library r2 tier := by
  unfold resolve_prompt
  rw [hv, ha]

/-! ## Claim theorems -/

/-- C1 counterexample: with only the Fast backend loaded, a request whose
legacy alias is `standard` makes `resolve_tier` return the HighQuality
tier even though that tier has no loaded handle. -/
theorem legacy_alias_returns_unavailable_tier :
    resolve_tier ⟨true, false, false⟩
      ⟨"hello", ModelTier.fast, some ModelType.standard, 1/2, 1/2, 1, none, none⟩ =
      Except.ok ModelTier.high ∧
    Models.loaded ⟨true, false, false⟩ ModelTier.high = false :=
  ⟨rfl, rfl⟩

/-- C1 amended: for every request that does not use the legacy two-valued
model alias, `resolve_tier` never returns a tier whose backend slot has
no loaded handle; a legacy-alias request bypasses the availability check
and can name an unloaded tier. -/
theorem resolver_avoids_unavailable_tiers_without_alias
    (m : Models) (r : TTSRequest) (t : ModelTier)
    (hmodel : r.model = none)
    (hres : resolve_tier m r = Except.ok t) :
    m.loaded t = true := by
  simp only [resolve_tier, hmodel] at hres
  split_ifs at hres with h1 h2 h3 h4
  · injection hres with h; subst h; exact h1
  · injection hres with h; subst h; exact h2
  · injection hres with h; subst h; exact h3
  · injection hres with h; subst h; exact h4

/-- Closed witness for the amended C1 theorem at a concrete state and
request. -/
theorem resolver_avoids_unavailable_tiers_without_alias_witness :
    Models.loaded ⟨true, false, false⟩ ModelTier.fast = true :=
  resolver_avoids_unavailable_tiers_without_alias ⟨true, false, false⟩
    ⟨"hi", ModelTier.fast, none, 1/2, 1/2, 1, none, none⟩ ModelTier.fast rfl rfl

/-- C2 counterexample: with all three backends unloaded, a request whose
legacy alias is `turbo` does not fail with `NoBackendReady`; it returns
the Normal tier, refuting the "all unavailable implies failure"
direction of the claimed equivalence. -/
theorem legacy_alias_bypasses_no_backend_failure :
    resolve_tier ⟨false, false, false⟩
      ⟨"hello", ModelTier.fast, some ModelType.turbo, 1/2, 1/2, 1, none, none⟩ =
      Except.ok ModelTier.normal ∧
    Models.loaded ⟨false, false, false⟩ ModelTier.fast = false ∧
    Models.loaded ⟨false, false, false⟩ ModelTier.normal = false ∧
    Models.loaded ⟨false, false, false⟩ ModelTier.high = false :=
  ⟨rfl, rfl, rfl, rfl⟩

/-- C2 amended: `resolve_tier` fails with the `NoBackendReady` error
exactly when the request has no legacy alias and all three backends are
unloaded; whenever at least one backend is loaded it returns some tier
and never fails. -/
theorem no_backend_ready_iff_alias_free_and_none_loaded
    (m : Models) (r : TTSRequest) :
    (resolve_tier m r = Except.error "No TTS models loaded" ↔
      r.model = none ∧ m.fast = false ∧ m.normal = false ∧ m.high = false) ∧
    ((m.fast || m.normal || m.high) = true →
      exceptIsOk (resolve_tier m r) = true) := by
  obtain ⟨mf, mn, mh⟩ := m
  obtain ⟨text, tier, mdl, ex, cw, sp, vid, app⟩ := r
  cases mdl with
  | none =>
    cases tier <;> cases mf <;> cases mn <;> cases mh <;>
      simp [resolve_tier, Models.loaded, exceptIsOk]
  | some mt =>
    cases mt <;> simp [resolve_tier, exceptIsOk]

/-- Closed witness for the amended C2 theorem: with only Fast loaded,
resolution of a plain request succeeds. -/
theorem no_backend_ready_iff_alias_free_and_none_loaded_witness :
    exceptIsOk (resolve_tier ⟨true, false, false⟩
      ⟨"hi", ModelTier.high, none, 1/2, 1/2, 1, none, none⟩) = true :=
  (no_backend_ready_iff_alias_free_and_none_loaded ⟨true, false, false⟩
    ⟨"hi", ModelTier.high, none, 1/2, 1/2, 1, none, none⟩).2 rfl

/-- C3: when no legacy alias is given and the requested tier has no
loaded handle, `resolve_tier` returns the first tier of the fixed order
`[fast, normal, high]` whose backend is loaded, and the
`NoBackendReady` error when there is none. -/
theorem fallback_returns_first_loaded
    (m : Models) (r : TTSRequest)
    (hmodel : r.model = none)
    (hreq : m.loaded r.tier = false) :
    resolve_tier m r =
      match [ModelTier.fast, ModelTier.normal, ModelTier.high].find?
          (fun t => m.loaded t) with
      | some t => Except.ok t
      | none => Except.error "No TTS models loaded" := by
  obtain ⟨mf, mn, mh⟩ := m
  obtain ⟨text, tier, mdl, ex, cw, sp, vid, app⟩ := r
  subst hmodel
  cases tier <;> cases mf <;> cases mn <;> cases mh <;>
    simp_all [resolve_tier, Models.loaded, List.find?]

/-- Closed witness for C3: requesting HighQuality when only Fast is
loaded resolves to Fast, matching the fixed fallback order. -/
theorem fallback_returns_first_loaded_witness :
    (resolve_tier ⟨true, false, false⟩
      ⟨"hi", ModelTier.high, none, 1/2, 1/2, 1, none, none⟩ =
      match [ModelTier.fast, ModelTier.normal, ModelTier.high].find?
          (fun t => Models.loaded ⟨true, false, false⟩ t) with
      | some t => Except.ok t
      | none => Except.error "No TTS models loaded") ∧
    resolve_tier ⟨true, false, false⟩
      ⟨"hi", ModelTier.high, none, 1/2, 1/2, 1, none, none⟩ =
      Except.ok ModelTier.fast :=
  ⟨fallback_returns_first_loaded ⟨true, false, false⟩
    ⟨"hi", ModelTier.high, none, 1/2, 1/2, 1, none, none⟩ rfl rfl, rfl⟩

/-- C4 counterexample: the squeeze-based normalization of the dispatch
path does not make every backend output 1-D. A scalar-wrapped 2-D
output of shape (1, 1) collapses to a 0-D buffer, and a 2-D output of
shape (2, 3) with no singleton axis stays 2-D. -/
theorem squeeze_not_always_one_dim :
    ensure_1d [1, 1] = [] ∧ ensure_1d [2, 3] = [2, 3] ∧
    (ensure_1d [1, 1]).length ≠ 1 ∧ (ensure_1d [2, 3]).length ≠ 1 := by
  refine ⟨?_, ?_, ?_, ?_⟩ <;> decide

/-- C4 amended: a 1-D backend output passes through unchanged, and a
backend output with more than one axis is reduced to a 1-D buffer
exactly in the case that drives the claim, namely when exactly one of
its axes has size other than 1 (in particular a (1, n) or (n, 1) output
with n ≠ 1); the normalization removes every singleton axis, so a fully
singleton output collapses below 1-D and an output with two or more
non-singleton axes stays above 1-D. -/
theorem squeeze_one_dim_conditions (shape : List ℕ) :
    (shape.length = 1 → ensure_1d shape = shape) ∧
    (1 < shape.length → shape.countP (fun d => d ≠ 1) = 1 →
      (ensure_1d shape).length = 1) := by
  constructor
  · intro h
    rw [ensure_1d, if_neg (by omega)]
  · intro h hc
    rw [ensure_1d, if_pos h, np_squeeze, ← List.countP_eq_length_filter]
    exact hc

/-- Closed witness for the amended C4 theorem: a (1, 5) output becomes
1-D. -/
theorem squeeze_one_dim_conditions_witness :
    (ensure_1d [1, 5]).length = 1 :=
  (squeeze_one_dim_conditions [1, 5]).2 (by norm_num) (by decide)

/-- C5 counterexample: at base rate 1 and speed 1/2 the effective sample
rate returned by `apply_speed_change` is `int(1 * 0.5) = 0`, not the
claimed exact product 1 × 0.5. -/
theorem speed_change_rate_truncated :
    apply_speed_change [1] (1/2) 1 = ([1], 0) ∧
    ((0 : ℤ) : ℚ) ≠ ((1 : ℤ) : ℚ) * (1/2) := by
  constructor
  · rw [apply_speed_change, if_neg (by norm_num)]
    have h : pyInt (((1 : ℤ) : ℚ) * (1/2)) = 0 := by
      rw [pyInt_eq, if_neg (by norm_num)]
      norm_num
    rw [h]
  · norm_num

/-- C5 amended: `apply_speed_change` always returns the waveform
unchanged; it is the identity at speed 1.0; for other speeds the
effective sample rate is the truncation `int(base_rate * speed)`, which
equals the exact product `base_rate × speed` whenever that product is an
integer. -/
theorem speed_change_waveform_and_truncated_rate
    (audio : List ℚ) (speed : ℚ) (r : ℤ) :
    (apply_speed_change audio speed r).1 = audio ∧
    apply_speed_change audio 1 r = (audio, r) ∧
    (speed ≠ 1 → (apply_speed_change audio speed r).2 = pyInt ((r : ℚ) * speed)) ∧
    (∀ k : ℤ, (r : ℚ) * speed = (k : ℚ) →
      (apply_speed_change audio speed r).2 = k) := by
  refine ⟨?_, ?_, ?_, ?_⟩
  · rw [apply_speed_change]
    split_ifs <;> rfl
  · rw [apply_speed_change, if_pos rfl]
  · intro h
    rw [apply_speed_change, if_neg h]
  · intro k hk
    rw [apply_speed_change]
    split_ifs with h
    · subst h
      rw [mul_one] at hk
      exact_mod_cast hk
    · show pyInt ((r : ℚ) * speed) = k
      rw [hk, pyInt_intCast]

/-- Closed witness for the amended C5 theorem: halving speed at base rate
24000 keeps the waveform and yields effective rate 12000. -/
theorem speed_change_waveform_and_truncated_rate_witness :
    (apply_speed_change [1] (1/2) 24000).1 = [1] ∧
    (apply_speed_change [1] (1/2) 24000).2 = 12000 :=
  ⟨(speed_change_waveform_and_truncated_rate [1] (1/2) 24000).1,
   (speed_change_waveform_and_truncated_rate [1] (1/2) 24000).2.2.2 12000
     (by norm_num)⟩

/-- C6: `apply_fade_out` is a no-op (the unchanged buffer) for every
non-positive fade duration, and for every positive duration the fade
window it computes never exceeds the buffer length. -/
theorem fade_out_noop_and_window_clamped
    (audio : List ℚ) (d : ℚ) (r : ℕ) :
    (d ≤ 0 → apply_fade_out audio d r = Except.ok audio) ∧
    (0 < d → fade_window audio d r ≤ audio.length) := by
  constructor
  · intro h
    rw [apply_fade_out, if_pos h]
  · intro _
    rw [fade_window]
    split_ifs with h
    · exact le_rfl
    · omega

/-- Closed witness for the C6 theorem: a negative duration leaves the
buffer untouched and a positive duration keeps the window within the
buffer. -/
theorem fade_out_noop_and_window_clamped_witness :
    apply_fade_out [1, 2] (-1) 5 = Except.ok [1, 2] ∧
    fade_window [1, 2] 1 5 ≤ 2 :=
  ⟨(fade_out_noop_and_window_clamped [1, 2] (-1) 5).1 (by norm_num),
   (fade_out_noop_and_window_clamped [1, 2] 1 5).2 (by norm_num)⟩

/-- C10: evaluation of `apply_fade_out` at the failing input: a
one-sample buffer with positive fade duration 1/100000 at rate 24000
gives `int(0.24) = 0` fade samples, and the numpy assignment
`audio[-0:] = audio[-0:] * fade_curve` multiplies the whole buffer by an
empty curve, raising a broadcast ValueError instead of returning the
buffer. -/
theorem fade_out_fails_small_positive_duration :
    apply_fade_out [1] (1/100000) 24000 =
      Except.error "could not broadcast input array" := by
  have hp : pyInt ((1/100000 : ℚ) * (24000 : ℕ)) = 0 := by
    rw [pyInt_eq, if_neg (by norm_num)]
    norm_num
  have hfw : fade_window [1] (1/100000 : ℚ) 24000 = 0 := by
    rw [fade_window, hp]
    norm_num
  rw [apply_fade_out, if_neg (by norm_num), hfw]
  norm_num

/-- C7: for a request whose voice id is in neither the Chatterbox voice
catalog nor the Kokoro voice list and that carries no explicit prompt
path, dispatch to a loaded resolved tier does not fail: the Fast tier
substitutes the default voice af_bella, the cloning-capable tiers
proceed with no cloning prompt, and the whole generation succeeds. -/
theorem unknown_voice_is_nonfatal
    (library : List (String × Option String)) (m : Models)
    (backend : BackendCall → List ℚ) (r : TTSRequest) (v : String) (t : ModelTier)
    (hv : r.voice_id = some v)
    (hlib : library.lookup v = none)
    (hkv : v ∉ KOKORO_VOICES)
    (happ : r.audio_prompt_path = none)
    (hres : resolve_tier m r = Except.ok t)
    (hloaded : m.loaded t = true) :
    (t = ModelTier.fast →
      dispatch_call library m r t =
        Except.ok (.kokoro r.text "af_bella" r.speed)) ∧
    (t = ModelTier.normal →
      dispatch_call library m r t = Except.ok (.turbo r.text none)) ∧
    (t = ModelTier.high →
      dispatch_call library m r t =
        Except.ok (.standard r.text r.exaggeration r.cfg_weight none)) ∧
    exceptIsOk (generate_speech library m backend r) = true := by
  have hval : kokoro_validate_voice "af_bella" = "af_bella" := by decide
  have hprompt : ∀ tt : ModelTier, resolve_prompt library r tt = none := by
    intro tt
    rw [resolve_prompt]
    split_ifs with hc
    · rw [hv]
      show get_voice_audio_path library v = none
      simp only [get_voice_audio_path, hlib]
    · exact happ
  cases t with
  | fast =>
    have hmf : m.fast = true := hloaded
    have hd : dispatch_call library m r ModelTier.fast =
        Except.ok (.kokoro r.text "af_bella" r.speed) := by
      simp [dispatch_call, hmf, hv, hkv, hval]
    refine ⟨fun _ => hd, fun h => ModelTier.noConfusion h,
      fun h => ModelTier.noConfusion h, ?_⟩
    simp [generate_speech, hres, generate_with_tier, hd, exceptIsOk]
  | normal =>
    have hmn : m.normal = true := hloaded
    have hd : dispatch_call library m r ModelTier.normal =
        Except.ok (.turbo r.text none) := by
      simp [dispatch_call, hmn, hprompt, truthyOpt]
    refine ⟨fun h => ModelTier.noConfusion h, fun _ => hd,
      fun h => ModelTier.noConfusion h, ?_⟩
    simp [generate_speech, hres, generate_with_tier, hd, exceptIsOk]
  | high =>
    have hmh : m.high = true := hloaded
    have hd : dispatch_call library m r ModelTier.high =
        Except.ok (.standard r.text r.exaggeration r.cfg_weight none) := by
      simp [dispatch_call, hmh, hprompt]
    refine ⟨fun h => ModelTier.noConfusion h, fun h => ModelTier.noConfusion h,
      fun _ => hd, ?_⟩
    simp [generate_speech, hres, generate_with_tier, hd, exceptIsOk]

/-- Closed witness for C7: an unknown voice id on the Normal tier yields
a promptless Turbo invocation and a successful generation. -/
theorem unknown_voice_is_nonfatal_witness :
    dispatch_call [] ⟨true, true, true⟩
      ⟨"hi", ModelTier.normal, none, 1/2, 1/2, 1, some "ghost", none⟩
      ModelTier.normal = Except.ok (BackendCall.turbo "hi" none) ∧
    exceptIsOk (generate_speech [] ⟨true, true, true⟩ (fun _ => [])
      ⟨"hi", ModelTier.normal, none, 1/2, 1/2, 1, some "ghost", none⟩) = true :=
  ⟨(unknown_voice_is_nonfatal [] ⟨true, true, true⟩ (fun _ => [])
      ⟨"hi", ModelTier.normal, none, 1/2, 1/2, 1, some "ghost", none⟩ "ghost"
      ModelTier.normal rfl rfl (by decide) rfl rfl rfl).2.1 rfl,
   (unknown_voice_is_nonfatal [] ⟨true, true, true⟩ (fun _ => [])
      ⟨"hi", ModelTier.normal, none, 1/2, 1/2, 1, some "ghost", none⟩ "ghost"
      ModelTier.normal rfl rfl (by decide) rfl rfl rfl).2.2.2⟩

/-- C8: two valid requests that differ only in `exaggeration` and
`cfg_weight` (both within [0,1]) and resolve to a tier other than
HighQuality pass validation and produce identical responses, for every
backend behavior — the emotion parameters never reach the Fast or
Normal backend invocation. -/
theorem emotion_params_ignored_off_high_tier
    (library : List (String × Option String)) (m : Models)
    (backend : BackendCall → List ℚ) (r1 r2 : TTSRequest) (t : ModelTier)
    (htext : r1.text = r2.text) (htier : r1.tier = r2.tier)
    (hmodel : r1.model = r2.model) (hspeed : r1.speed = r2.speed)
    (hvoice : r1.voice_id = r2.voice_id)
    (happ : r1.audio_prompt_path = r2.audio_prompt_path)
    (hval : validate_request r1 = true)
    (hex : 0 ≤ r2.exaggeration ∧ r2.exaggeration ≤ 1)
    (hcfg : 0 ≤ r2.cfg_weight ∧ r2.cfg_weight ≤ 1)
    (hres : resolve_tier m r1 = Except.ok t)
    (hnh : t ≠ ModelTier.high) :
    validate_request r2 = true ∧
    generate_speech library m backend r1 = generate_speech library m backend r2 := by
  have hres2 : resolve_tier m r2 = Except.ok t := by
    rw [← resolve_tier_congr m r1 r2 hmodel htier]
    exact hres
  have hpr : ∀ tt : ModelTier,
      resolve_prompt library r1 tt = resolve_prompt library r2 tt :=
    fun tt => resolve_prompt_congr library r1 r2 tt hvoice happ
  constructor
  · unfold validate_request
    rw [← htext, ← hspeed]
    unfold validate_request at hval
    simp only [Bool.and_eq_true, decide_eq_true_eq] at hval ⊢
    exact ⟨⟨⟨⟨⟨⟨⟨hval.1.1.1.1.1.1.1, hval.1.1.1.1.1.1.2⟩, hex.1⟩, hex.2⟩,
      hcfg.1⟩, hcfg.2⟩, hval.1.2⟩, hval.2⟩
  · cases t with
    | high => exact absurd rfl hnh
    | fast =>
      simp only [generate_speech, hres, hres2, generate_with_tier,
        dispatch_call, htext, hvoice, hspeed, hpr]
    | normal =>
      simp only [generate_speech, hres, hres2, generate_with_tier,
        dispatch_call, htext, hvoice, hspeed, hpr]

/-- Closed witness for C8: at two requests that differ only in the
emotion parameters and resolve to the Fast tier, the responses agree. -/
theorem emotion_params_ignored_off_high_tier_witness :
    validate_request ⟨"hi", ModelTier.fast, none, 1, 1, 1, none, none⟩ = true ∧
    generate_speech [] ⟨true, true, true⟩ (fun _ => [])
      ⟨"hi", ModelTier.fast, none, 0, 0, 1, none, none⟩ =
    generate_speech [] ⟨true, true, true⟩ (fun _ => [])
      ⟨"hi", ModelTier.fast, none, 1, 1, 1, none, none⟩ :=
  emotion_params_ignored_off_high_tier [] ⟨true, true, true⟩ (fun _ => [])
    ⟨"hi", ModelTier.fast, none, 0, 0, 1, none, none⟩
    ⟨"hi", ModelTier.fast, none, 1, 1, 1, none, none⟩ ModelTier.fast
    rfl rfl rfl rfl rfl rfl
    (by simp only [validate_request, Bool.and_eq_true, decide_eq_true_eq]
        refine ⟨⟨⟨⟨⟨⟨⟨?_, ?_⟩, ?_⟩, ?_⟩, ?_⟩, ?_⟩, ?_⟩, ?_⟩ <;>
          first
            | decide
            | norm_num)
    ⟨by norm_num, by norm_num⟩ ⟨by norm_num, by norm_num⟩ rfl
    (by decide)

/-- C9 counterexample: the health status in the state reached after all
three loaders fail equals the health status of the fresh state in which
no load was ever attempted — both are the single constant
"no_models_loaded", so the degraded status does not name the cause. -/
theorem degraded_status_does_not_name_cause :
    (health_check models_after_all_load_failures
        availability_after_all_load_failures "cpu").status =
      (health_check initial_models initial_availability "cpu").status ∧
    (health_check models_after_all_load_failures
        availability_after_all_load_failures "cpu").status =
      "no_models_loaded" :=
  ⟨rfl, rfl⟩

/-- C9 amended: the health endpoint reports status "ok" exactly when at
least one backend handle is loaded; otherwise it reports the fixed
degraded status "no_models_loaded", which does not distinguish
none-loaded-yet from all-failed. -/
theorem health_status_ok_iff_any_loaded
    (m : Models) (avail : ModelAvailability) (device : String) :
    ((health_check m avail device).status = "ok" ↔
      (m.fast || m.normal || m.high) = true) ∧
    ((m.fast || m.normal || m.high) = false →
      (health_check m avail device).status = "no_models_loaded") := by
  obtain ⟨mf, mn, mh⟩ := m
  constructor
  · cases mf <;> cases mn <;> cases mh <;> simp [health_check]
  · intro h
    cases mf <;> cases mn <;> cases mh <;> simp_all [health_check]

/-- Closed witness for the amended C9 theorem: with only the Fast handle
loaded the status is "ok". -/
theorem health_status_ok_iff_any_loaded_witness :
    (health_check ⟨true, false, false⟩ ⟨true, false, false⟩ "mps").status = "ok" :=
  ((health_status_ok_iff_any_loaded ⟨true, false, false⟩ ⟨true, false, false⟩
    "mps").1).mpr rfl

end Murmur
